import Mathlib

/-!
Shallow embedding of the now-playing aggregation core of
`nowPlayingDeezerWindows` (src/src/index.ts).

The first half embeds the `DeezerMusicMonitor` class: its mutable fields
(`currentMusic`, `isInitialized`) together with the platform-owned session
list become an explicit `MonitorState`, and each method becomes a state
transformer.  The second half embeds the platform adapter functions of the
server file (`getSpotifyMusicWindows`, `getLinuxMusic`, `getMacOSMusic`,
`getWindowsMusic`): a JavaScript `exec` callback receives either an error or
a stdout string, and `resolve`/`reject` of the wrapping promise become
`Except.ok`/`Except.error`.

JavaScript string primitives used by the source (`split`, `trim`, the
regex replace dropping one trailing hyphen, truthiness of optional string
fields) are embedded char-wise so that every definition evaluates by kernel
reduction.
-/

namespace NowPlaying

/-- The `MusicInfo` interface: `{artist: string; title: string; album?: string}`.
`album` is optional, hence `Option String`; a JavaScript `undefined` album is
`none`, distinct from `some ""`. -/
structure MusicInfo where
  artist : String
  title : String
  album : Option String
deriving DecidableEq, Repr

/-- The nested `session.media` object.  The monitor reads `artist`, `title`,
`album` (in `extractMusicInfo`) and `albumTitle` (in `getCurrentMusic`); each
may be absent. -/
structure MediaProps where
  artist : Option String
  title : Option String
  album : Option String
  albumTitle : Option String
deriving DecidableEq, Repr

/-- The `session.timeline` object: the monitor only reads `duration` and
`position`. -/
structure TimelineProps where
  duration : Int
  position : Int
deriving DecidableEq, Repr

/-- The `session.playback` object: the monitor only reads `playbackStatus`. -/
structure PlaybackProps where
  playbackStatus : Int
deriving DecidableEq, Repr

/-- A loosely-typed session snapshot (`session: any`): the fields the monitor
probes, each possibly absent. -/
structure RawSession where
  media : Option MediaProps
  artist : Option String
  title : Option String
  album : Option String
  timeline : Option TimelineProps
  playback : Option PlaybackProps
deriving DecidableEq, Repr

/-- JavaScript truthiness of an optional string field: present and non-empty
(`undefined` and `""` are both falsy). -/
def truthy (o : Option String) : Bool := (o.getD "") != ""

/-- JavaScript `a || ''` on an optional string field: both `undefined` and
`""` give `""`, which coincides with `Option.getD ""`. -/
def orEmpty (o : Option String) : String := o.getD ""

/-- State of one `DeezerMusicMonitor` object.  `currentMusic` and
`isInitialized` are the class fields; `sessions` is the platform-owned
`monitor.sessions` list read by the class.  `lastStatus` and `subscribeCount`
are history variables: the last playback status code handled by
`handlePlaybackStatus`, and the number of completed native subscriptions. -/
structure MonitorState where
  currentMusic : Option MusicInfo
  isInitialized : Bool
  sessions : List RawSession
  lastStatus : Option Int
  subscribeCount : Nat
deriving DecidableEq, Repr

/-- A freshly constructed monitor: no current music, uninitialized, and (until
the platform reports sessions) an empty session list. -/
def initialState : MonitorState :=
  { currentMusic := none, isInitialized := false, sessions := [],
    lastStatus := none, subscribeCount := 0 }

/-- `hasMusicChanged(newMusic)`: true when `this.currentMusic` is null,
otherwise strict (`!==`) field-wise comparison of artist, title and album. -/
def hasMusicChanged (currentMusic : Option MusicInfo) (newMusic : MusicInfo) : Bool :=
  match currentMusic with
  | none => true
  | some c =>
      c.artist != newMusic.artist || c.title != newMusic.title || c.album != newMusic.album

/-- `handlePlaybackStatus(status)`: status 0 clears `currentMusic`; statuses
1, 2 and the default branch only log.  The history field `lastStatus` records
the code that was processed. -/
def handlePlaybackStatus (s : MonitorState) (status : Int) : MonitorState :=
  if status = 0 then { s with currentMusic := none, lastStatus := some status }
  else { s with lastStatus := some status }

/-- The record built by the media branch of `extractMusicInfo`:
`{artist: media.artist || '', title: media.title || '', album: media.album || ''}`. -/
def mediaMusicInfo (m : MediaProps) : MusicInfo :=
  { artist := orEmpty m.artist, title := orEmpty m.title, album := some (orEmpty m.album) }

/-- The record built by the direct-fields branch of `extractMusicInfo`:
`{artist: session.artist || '', title: session.title || '', album: session.album || ''}`. -/
def directMusicInfo (sess : RawSession) : MusicInfo :=
  { artist := orEmpty sess.artist, title := orEmpty sess.title,
    album := some (orEmpty sess.album) }

/-- `session.timeline && session.timeline.duration > 0`. -/
def timelineActive (sess : RawSession) : Bool :=
  match sess.timeline with
  | some t => 0 < t.duration
  | none => false

/-- The tail of `extractMusicInfo` and of `getCurrentMusic`:
`if (musicInfo && this.hasMusicChanged(musicInfo)) this.currentMusic = musicInfo`. -/
def updateIfChanged (s : MonitorState) (mi : MusicInfo) : MonitorState :=
  if hasMusicChanged s.currentMusic mi then { s with currentMusic := some mi } else s

/-- `extractMusicInfo(session)`: probes `media`, then direct `artist`/`title`
fields, then an active timeline (which only routes a playback status); the
assembled record, if any, is stored through the change check. -/
def extractMusicInfo (s : MonitorState) (sess : RawSession) : MonitorState :=
  match sess.media with
  | some m => updateIfChanged s (mediaMusicInfo m)
  | none =>
      if truthy sess.artist || truthy sess.title then
        updateIfChanged s (directMusicInfo sess)
      else if timelineActive sess then
        match sess.playback with
        | some p => handlePlaybackStatus s p.playbackStatus
        | none => s
      else s

/-- `checkCurrentMusic()`: if the session list is non-empty, extract from its
first entry. -/
def checkCurrentMusic (s : MonitorState) : MonitorState :=
  match s.sessions.head? with
  | some sess => extractMusicInfo s sess
  | none => s

/-- The `current-session-changed` handler: the platform has replaced
`monitor.sessions`, then `checkCurrentMusic` runs. -/
def onCurrentSessionChanged (s : MonitorState) (newSessions : List RawSession) : MonitorState :=
  checkCurrentMusic { s with sessions := newSessions }

/-- `start()`: a no-op when already initialized; otherwise attempts the native
subscription (`initOk` says whether it throws).  On success `isInitialized`
becomes true and one subscription is recorded; on failure the error is logged
and the monitor stays uninitialized. -/
def start (s : MonitorState) (initOk : Bool) : MonitorState :=
  if s.isInitialized then s
  else if initOk then
    { s with isInitialized := true, subscribeCount := s.subscribeCount + 1 }
  else s

/-- `stop()`: destroys the native monitor and resets `isInitialized` when
initialized; otherwise does nothing. -/
def stop (s : MonitorState) : MonitorState :=
  if s.isInitialized then { s with isInitialized := false } else s

/-- The record built inside `getCurrentMusic`: note the album comes from
`media.albumTitle`, not `media.album`. -/
def currentMusicDerived (m : MediaProps) : MusicInfo :=
  { artist := orEmpty m.artist, title := orEmpty m.title,
    album := some (orEmpty m.albumTitle) }

/-- `getCurrentMusic()`: starts if uninitialized, then, when the first session
exists and carries `media`, rebuilds a record from `media.artist`,
`media.title`, `media.albumTitle`, stores it through the change check, and
returns `this.currentMusic`. -/
def getCurrentMusic (s : MonitorState) (initOk : Bool) : MonitorState × Option MusicInfo :=
  let s1 := if s.isInitialized then s else start s initOk
  match s1.sessions.head? with
  | some sess =>
      match sess.media with
      | some m =>
          let s2 := updateIfChanged s1 (currentMusicDerived m)
          (s2, s2.currentMusic)
      | none => (s1, s1.currentMusic)
  | none => (s1, s1.currentMusic)

/-- `getCurrentSession()`: starts if uninitialized, then returns the first
session, if any. -/
def getCurrentSession (s : MonitorState) (initOk : Bool) : MonitorState × Option RawSession :=
  let s1 := if s.isInitialized then s else start s initOk
  (s1, s1.sessions.head?)

/-- States reachable by a monitor object from construction: platform session
changes, the public queries (which may start the monitor), and explicit
`start`/`stop` calls. -/
inductive Reachable : MonitorState → Prop where
  | base : Reachable initialState
  | sessionChanged {s : MonitorState} (h : Reachable s) (newSessions : List RawSession) :
      Reachable (onCurrentSessionChanged s newSessions)
  | getMusic {s : MonitorState} (h : Reachable s) (ok : Bool) :
      Reachable (getCurrentMusic s ok).1
  | getSession {s : MonitorState} (h : Reachable s) (ok : Bool) :
      Reachable (getCurrentSession s ok).1
  | startStep {s : MonitorState} (h : Reachable s) (ok : Bool) :
      Reachable (start s ok)
  | stopStep {s : MonitorState} (h : Reachable s) :
      Reachable (stop s)

/-- Does `pat` occur at the head of `cs`? -/
def startsWithChars : List Char → List Char → Bool
  | [], _ => true
  | _ :: _, [] => false
  | p :: ps, c :: cs => p == c && startsWithChars ps cs

/-- Worker for `jsSplit`: `cur` holds the chars of the current piece in
reverse; `fuel` bounds the recursion by the length of the remaining input. -/
def jsSplitAux (sep : List Char) : Nat → List Char → List Char → List (List Char)
  | 0, cur, rest => [cur.reverse ++ rest]
  | fuel + 1, cur, rest =>
      match rest with
      | [] => [cur.reverse]
      | c :: rs =>
          if startsWithChars sep rest then
            cur.reverse :: jsSplitAux sep fuel [] (rest.drop sep.length)
          else
            jsSplitAux sep fuel (c :: cur) rs

/-- JavaScript `s.split(sep)` for a non-empty string separator: splits at
every non-overlapping occurrence, left to right; no match gives `[s]`, and
the empty string gives `[""]`. -/
def jsSplit (s sep : String) : List String :=
  (jsSplitAux sep.data s.data.length [] s.data).map String.mk

/-- The whitespace recognised by the trim embedding. -/
def isSpaceChar (c : Char) : Bool :=
  c == ' ' || c == '\t' || c == '\n' || c == '\r'

/-- JavaScript `s.trim()`: strip leading and trailing whitespace. -/
def jsTrim (s : String) : String :=
  String.mk (((s.data.dropWhile isSpaceChar).reverse.dropWhile isSpaceChar).reverse)

/-- JavaScript regex replace of one trailing hyphen with the empty string:
if the last character is a hyphen, drop it; otherwise leave the string. -/
def stripTrailingDash (s : String) : String :=
  match s.data.reverse with
  | c :: rest => if c == '-' then String.mk rest.reverse else s
  | [] => s

/-- Decidable equality of `Except` values, so adapter results evaluate on
concrete inputs. -/
instance {ε α : Type} [DecidableEq ε] [DecidableEq α] : DecidableEq (Except ε α) :=
  fun a b =>
    match a, b with
    | .ok x, .ok y =>
        if h : x = y then .isTrue (by rw [h]) else .isFalse (fun hh => h (Except.ok.inj hh))
    | .error x, .error y =>
        if h : x = y then .isTrue (by rw [h]) else .isFalse (fun hh => h (Except.error.inj hh))
    | .ok _, .error _ => .isFalse (fun hh => Except.noConfusion hh)
    | .error _, .ok _ => .isFalse (fun hh => Except.noConfusion hh)

/-- Outcome handed to an `exec` callback: either an error or a stdout
string. -/
inductive ExecOutcome where
  | fail
  | success (stdout : String)
deriving DecidableEq, Repr

/-- The shared destructure-and-check shape of both CLI adapters:
`const [artist, title] = output.split(" - "); if (artist && title) ...`.
The first two parts are kept when both are defined and non-empty. -/
def parsePair (output : String) : Option (String × String) :=
  match jsSplit output " - " with
  | a :: t :: _ => if a != "" && t != "" then some (a, t) else none
  | _ => none

/-- `getSpotifyMusicWindows`: an `exec` error resolves to null, empty trimmed
output resolves to null, a parsed pair resolves to the trimmed artist/title,
and anything unparsable also resolves to null.  The promise never rejects. -/
def getSpotifyMusicWindows (r : ExecOutcome) : Except String (Option MusicInfo) :=
  match r with
  | .fail => .ok none
  | .success stdout =>
      let output := jsTrim stdout
      if output = "" then .ok none
      else
        match parsePair output with
        | some (a, t) => .ok (some { artist := jsTrim a, title := jsTrim t, album := none })
        | none => .ok none

/-- The artist cleanup of `getLinuxMusic`: `artist.split(",")[0].trim()`. -/
def cleanArtist (a : String) : String :=
  jsTrim ((jsSplit a ",").headD "")

/-- The title cleanup of `getLinuxMusic`: drop one trailing hyphen, then
trim. -/
def cleanTitle (t : String) : String :=
  jsTrim (stripTrailingDash t)

/-- `getLinuxMusic`: an `exec` error rejects with "An error occurred"; a
parsed pair resolves with the cleaned artist and title; anything else
(including empty output) rejects with "Unable to parse song information". -/
def getLinuxMusic (r : ExecOutcome) : Except String MusicInfo :=
  match r with
  | .fail => .error "An error occurred"
  | .success stdout =>
      let output := jsTrim stdout
      match parsePair output with
      | some (a, t) => .ok { artist := cleanArtist a, title := cleanTitle t, album := none }
      | none => .error "Unable to parse song information"

/-- `getMacOSMusic`: an `exec` error rejects with "An error occurred"; when
the split has at least two parts, the first is the title and the second the
artist (both trimmed); otherwise it rejects with "Unable to parse song
information". -/
def getMacOSMusic (r : ExecOutcome) : Except String MusicInfo :=
  match r with
  | .fail => .error "An error occurred"
  | .success stdout =>
      let output := jsTrim stdout
      match jsSplit output " - " with
      | t :: a :: _ => .ok { artist := jsTrim a, title := jsTrim t, album := none }
      | _ => .error "Unable to parse song information"

/-- `getWindowsMusic`: Deezer (native monitor) first, `playerctl` CLI second.
The inputs are the results the two adapters would deliver; the boolean in the
output records whether the CLI adapter was invoked at all, which the source
only does when the Deezer result is null.  All sources empty gives a null
result, not an error. -/
def getWindowsMusic (deezer : Option MusicInfo) (cli : Option MusicInfo) :
    Option MusicInfo × Bool :=
  match deezer with
  | some m => (some m, false)
  | none => (cli, true)

/-- Modelled from the spec wording for `getCurrentMusic`: identical to the
code except that the re-derived record follows the normalizer's media rule
(`mediaMusicInfo`, album taken from `media.album`) instead of the code's
`media.albumTitle`.  Exists only to compare the spec's description with the
code. -/
def getCurrentMusicClaim (s : MonitorState) (initOk : Bool) : MonitorState × Option MusicInfo :=
  let s1 := if s.isInitialized then s else start s initOk
  match s1.sessions.head? with
  | some sess =>
      match sess.media with
      | some m =>
          let s2 := updateIfChanged s1 (mediaMusicInfo m)
          (s2, s2.currentMusic)
      | none => (s1, s1.currentMusic)
  | none => (s1, s1.currentMusic)

/-- A session whose `media` carries an `album` but no `albumTitle`: the
normalizer and `getCurrentMusic` disagree on it. -/
def sessAlbumX : RawSession :=
  { media := some { artist := some "A", title := some "T", album := some "X", albumTitle := none },
    artist := none, title := none, album := none, timeline := none, playback := none }

/-- An initialized monitor whose only session is `sessAlbumX`. -/
def stateAlbumX : MonitorState :=
  { currentMusic := none, isInitialized := true, sessions := [sessAlbumX],
    lastStatus := none, subscribeCount := 1 }

/-- A media-less session with an active timeline delivering playback status
0 (Stopped). -/
def sessStop : RawSession :=
  { media := none, artist := none, title := none, album := none,
    timeline := some { duration := 1, position := 0 },
    playback := some { playbackStatus := 0 } }

/-- A session carrying only nested media fields. -/
def sessMediaAB : RawSession :=
  { media := some { artist := some "A", title := some "B", album := none, albumTitle := none },
    artist := none, title := none, album := none, timeline := none, playback := none }

/-- The state of a fresh monitor after a status-0 snapshot followed by a
media-bearing snapshot: the last processed status is still 0, yet music was
recorded. -/
def badState : MonitorState :=
  onCurrentSessionChanged (onCurrentSessionChanged initialState [sessStop]) [sessMediaAB]

/-! ## Helper lemmas -/

theorem start_currentMusic (s : MonitorState) (ok : Bool) :
    (start s ok).currentMusic = s.currentMusic := by
  cases ok <;> by_cases h : s.isInitialized <;> simp [start, h]

theorem start_sessions (s : MonitorState) (ok : Bool) :
    (start s ok).sessions = s.sessions := by
  cases ok <;> by_cases h : s.isInitialized <;> simp [start, h]

theorem getCurrentMusic_eq (s : MonitorState) (ok : Bool) :
    getCurrentMusic s ok =
      match (start s ok).sessions.head? with
      | some sess =>
          match sess.media with
          | some m =>
              let s2 := updateIfChanged (start s ok) (currentMusicDerived m)
              (s2, s2.currentMusic)
          | none => (start s ok, (start s ok).currentMusic)
      | none => (start s ok, (start s ok).currentMusic) := by
  unfold getCurrentMusic
  have h1 : (if s.isInitialized then s else start s ok) = start s ok := by
    by_cases h : s.isInitialized <;> simp [start, h]
  rw [h1]

theorem jsSplit_empty (sep : String) : jsSplit "" sep = [""] := rfl

theorem start_start (s : MonitorState) (ok : Bool) :
    start (start s ok) ok = start s ok := by
  cases ok <;> by_cases h : s.isInitialized <;> simp [start, h]

theorem updateIfChanged_currentMusic (s : MonitorState) (mi : MusicInfo) :
    (updateIfChanged s mi).currentMusic = some mi
    ∨ (updateIfChanged s mi).currentMusic = s.currentMusic := by
  unfold updateIfChanged
  split
  · exact Or.inl rfl
  · exact Or.inr rfl

/-! ## Claims -/

/-- Claim C2, corrected on its last clause.  `hasChanged(previous, candidate)`
returns true whenever `previous` is absent; returns false when the two records
agree on artist, title and album; and for records agreeing on artist and
title it returns true iff the albums differ — but the optional album field is
compared strictly, with no empty-string normalization of an absent album, so
`hasChanged({a,t}, {a,t,""})` is true, not false. -/
theorem claim_C2_amended (p : Option MusicInfo) (c : MusicInfo) :
    (p = none → hasMusicChanged p c = true)
    ∧ (∀ q, p = some q → q.artist = c.artist → q.title = c.title → q.album = c.album →
        hasMusicChanged p c = false)
    ∧ (∀ q, p = some q → q.artist = c.artist → q.title = c.title →
        (hasMusicChanged p c = true ↔ q.album ≠ c.album)) := by
  refine ⟨fun h => by rw [h]; rfl, ?_, ?_⟩
  · intro q hq ha ht hal
    rw [hq]
    simp [hasMusicChanged, ha, ht, hal]
  · intro q hq ha ht
    rw [hq]
    simp [hasMusicChanged, ha, ht]

/-- Witness for C2: two records sharing artist and title but with distinct
albums are reported as changed. -/
theorem claim_C2_amended_witness :
    hasMusicChanged (some { artist := "a", title := "t", album := some "x" })
      { artist := "a", title := "t", album := some "y" } = true := by
  exact ((claim_C2_amended (some { artist := "a", title := "t", album := some "x" })
    { artist := "a", title := "t", album := some "y" }).2.2 _ rfl rfl rfl).mpr (by decide)

/-- Counterexample for C2 as stated: the claim says
`hasChanged({a,t}, {a,t,""})` is false (absent album normalized to the empty
string), but the code compares the optional album strictly, so an absent album
differs from an empty-string album and the call returns true. -/
theorem claim_C2_counterexample :
    hasMusicChanged (some { artist := "a", title := "t", album := none })
      { artist := "a", title := "t", album := some "" } = true := by decide

/-- Claim C8, confirmed.  The Windows fallback returns the native (Deezer)
result whenever it is non-empty without invoking the CLI adapter; only a null
native result makes it invoke the CLI adapter, whose result is then returned
as-is; when both are empty the result is an empty value, not an error. -/
theorem claim_C8 (m : MusicInfo) (cli : Option MusicInfo) :
    getWindowsMusic (some m) cli = (some m, false)
    ∧ getWindowsMusic none cli = (cli, true)
    ∧ getWindowsMusic none (some m) = (some m, true)
    ∧ getWindowsMusic none none = (none, true) :=
  ⟨rfl, rfl, rfl, rfl⟩

/-- Claim C9, confirmed.  On an uninitialized monitor a successful `start`
performs exactly one subscription and flips `isInitialized` to true; a second
`start` in any mode is a no-op (so no re-subscription); `start` on an already
initialized monitor changes nothing; `stop` flips `isInitialized` back without
another subscription and is a no-op on an uninitialized monitor. -/
theorem claim_C9 (s : MonitorState) (ok : Bool) (h : s.isInitialized = false) :
    start (start s true) ok = start s true
    ∧ (start (start s true) true).subscribeCount = s.subscribeCount + 1
    ∧ (start s true).isInitialized = true
    ∧ (start s false).isInitialized = false
    ∧ (∀ s2 : MonitorState, s2.isInitialized = true → start s2 ok = s2)
    ∧ (stop (start s true)).isInitialized = false
    ∧ (stop (start s true)).subscribeCount = (start s true).subscribeCount
    ∧ (∀ s2 : MonitorState, s2.isInitialized = false → stop s2 = s2) := by
  refine ⟨?_, ?_, ?_, ?_, ?_, ?_, ?_, ?_⟩
  · simp [start, h]
  · simp [start, h]
  · simp [start, h]
  · simp [start, h]
  · intro s2 h2
    simp [start, h2]
  · simp [start, stop, h]
  · simp [start, stop, h]
  · intro s2 h2
    simp [stop, h2]

/-- Witness for C9: starting a fresh monitor twice subscribes exactly once. -/
theorem claim_C9_witness :
    start (start initialState true) true = start initialState true
    ∧ (start (start initialState true) true).subscribeCount = 1 := by
  have h := claim_C9 initialState true rfl
  exact ⟨h.1, h.2.1⟩

/-- Claim C3, confirmed.  When a session carries a nested `media` field,
`extractMusicInfo` stores exactly the media artist/title/album (defaulted to
the empty string when absent) through the change check, and the result does
not depend on any other field of the session — two sessions with the same
media behave identically.  The three rules are tried in order and only the
first matching one applies: without media the direct fields are used when one
of them is truthy, an active timeline only routes a playback status and
yields no record, and a session matching none of the rules leaves the state
untouched. -/
theorem claim_C3 (s : MonitorState) (sess : RawSession) :
    (∀ m, sess.media = some m →
        extractMusicInfo s sess = updateIfChanged s (mediaMusicInfo m)
        ∧ ∀ sess2, sess2.media = some m → extractMusicInfo s sess2 = extractMusicInfo s sess)
    ∧ (sess.media = none → (truthy sess.artist || truthy sess.title) = true →
        extractMusicInfo s sess = updateIfChanged s (directMusicInfo sess))
    ∧ (sess.media = none → (truthy sess.artist || truthy sess.title) = false →
        timelineActive sess = true →
        extractMusicInfo s sess =
          match sess.playback with
          | some p => handlePlaybackStatus s p.playbackStatus
          | none => s)
    ∧ (sess.media = none → (truthy sess.artist || truthy sess.title) = false →
        timelineActive sess = false → extractMusicInfo s sess = s) := by
  refine ⟨?_, ?_, ?_, ?_⟩
  · intro m hm
    constructor
    · simp [extractMusicInfo, hm]
    · intro sess2 hm2
      simp [extractMusicInfo, hm, hm2]
  · intro hm hd
    simp [extractMusicInfo, hm, hd]
  · intro hm hd ht
    simp [extractMusicInfo, hm, hd, ht]
  · intro hm hd ht
    simp [extractMusicInfo, hm, hd, ht]

/-- Witness for C3: on a session that carries media fields together with
direct fields, a timeline and a stopped playback status, only the media rule
fires and its artist/title are stored with an empty-string album. -/
theorem claim_C3_witness :
    extractMusicInfo initialState
      { media := some { artist := some "A", title := some "T", album := none, albumTitle := none },
        artist := some "Z", title := some "W", album := some "Q",
        timeline := some { duration := 5, position := 0 },
        playback := some { playbackStatus := 0 } }
      = { initialState with
          currentMusic := some { artist := "A", title := "T", album := some "" } } := by
  have h := ((claim_C3 initialState
    { media := some { artist := some "A", title := some "T", album := none, albumTitle := none },
      artist := some "Z", title := some "W", album := some "Q",
      timeline := some { duration := 5, position := 0 },
      playback := some { playbackStatus := 0 } }).1 _ rfl).1
  exact h.trans (by decide)

/-- Counterexample for C4 as stated: a reachable state in which the last
processed transport status is 0 (Stopped) while `currentMusic` is present.
A status-0 timeline snapshot clears the music, but a later media-bearing
snapshot records a track without any new status signal arriving. -/
theorem claim_C4_counterexample :
    Reachable badState ∧ badState.lastStatus = some 0 ∧ badState.currentMusic ≠ none := by
  refine ⟨?_, by decide, by decide⟩
  exact Reachable.sessionChanged (Reachable.sessionChanged Reachable.base [sessStop]) [sessMediaAB]

/-- Claim C4, corrected.  Processing transport status 0 does clear
`currentMusic` regardless of its prior value — both directly in
`handlePlaybackStatus` and through any snapshot that routes a status-0 signal
via the timeline rule — but the invariant only holds at the moment Stopped is
entered: it is not preserved by later media- or direct-field snapshots, which
may set `currentMusic` while no new status has been processed (see the
counterexample). -/
theorem claim_C4_amended (s : MonitorState) (sess : RawSession)
    (hm : sess.media = none)
    (hd : (truthy sess.artist || truthy sess.title) = false)
    (ht : timelineActive sess = true)
    (hp : sess.playback = some { playbackStatus := 0 }) :
    (handlePlaybackStatus s 0).currentMusic = none
    ∧ (extractMusicInfo s sess).currentMusic = none
    ∧ (extractMusicInfo s sess).lastStatus = some 0 := by
  refine ⟨rfl, ?_, ?_⟩ <;> simp [extractMusicInfo, hm, hd, ht, hp, handlePlaybackStatus]

/-- Witness for C4: the stopped-status snapshot clears a previously recorded
track. -/
theorem claim_C4_amended_witness :
    (extractMusicInfo
      { currentMusic := some { artist := "A", title := "B", album := some "" },
        isInitialized := true, sessions := [], lastStatus := some 1, subscribeCount := 1 }
      sessStop).currentMusic = none := by
  exact (claim_C4_amended
    { currentMusic := some { artist := "A", title := "B", album := some "" },
      isInitialized := true, sessions := [], lastStatus := some 1, subscribeCount := 1 }
    sessStop rfl (by decide) (by decide) rfl).2.1

/-- Counterexample for C1 as stated: on a session whose media carries
`album: "X"` but no `albumTitle`, `getCurrentMusic` does not follow the
normalizer's media rule — the normalizer reads `media.album`, while
`getCurrentMusic` reads `media.albumTitle` and so stores and returns an
empty-string album instead of "X". -/
theorem claim_C1_counterexample :
    (getCurrentMusic stateAlbumX true).2 = some { artist := "A", title := "T", album := some "" }
    ∧ (getCurrentMusicClaim stateAlbumX true).2
        = some { artist := "A", title := "T", album := some "X" }
    ∧ getCurrentMusic stateAlbumX true ≠ getCurrentMusicClaim stateAlbumX true := by
  exact ⟨by decide, by decide, by decide⟩

/-- Claim C1, corrected on the album source.  `getCurrentMusic` first performs
`start()` when uninitialized (idempotently), always returns the stored
`currentMusic` of the resulting state, and when the latest session snapshot
carries a media field it re-derives the record from `media.artist`,
`media.title` and `media.albumTitle` (not `media.album` as the normalizer
does), each defaulted to the empty string, storing it through the change
detector; without a snapshot or without media the state beyond
initialization is untouched. -/
theorem claim_C1_amended (s : MonitorState) (ok : Bool) :
    getCurrentMusic s ok = getCurrentMusic (start s ok) ok
    ∧ (getCurrentMusic s ok).2 = (getCurrentMusic s ok).1.currentMusic
    ∧ (∀ sess m, s.sessions.head? = some sess → sess.media = some m →
        (getCurrentMusic s ok).1 = updateIfChanged (start s ok) (currentMusicDerived m))
    ∧ ((∀ sess, s.sessions.head? = some sess → sess.media = none) →
        (getCurrentMusic s ok).1 = start s ok) := by
  refine ⟨?_, ?_, ?_, ?_⟩
  · rw [getCurrentMusic_eq s ok, getCurrentMusic_eq (start s ok) ok, start_start]
  · rw [getCurrentMusic_eq]
    rcases hh : (start s ok).sessions.head? with _ | sess
    · rfl
    · rcases hm : sess.media with _ | m <;> simp [hm]
  · intro sess m hs hm
    simp [getCurrentMusic_eq, start_sessions, hs, hm]
  · intro hall
    rw [getCurrentMusic_eq]
    rw [start_sessions]
    cases hh : s.sessions.head? with
    | none => simp [hh]
    | some sess => simp [hh, hall sess hh]

/-- Witness for C1: on the concrete state `stateAlbumX` the returned value is
the stored record derived through `media.albumTitle`. -/
theorem claim_C1_amended_witness :
    (getCurrentMusic stateAlbumX true).1
      = updateIfChanged (start stateAlbumX true)
          (currentMusicDerived
            { artist := some "A", title := some "T", album := some "X", albumTitle := none })
    ∧ (getCurrentMusic stateAlbumX true).2
        = some { artist := "A", title := "T", album := some "" } := by
  have h := claim_C1_amended stateAlbumX true
  refine ⟨h.2.2.1 sessAlbumX _ rfl rfl, ?_⟩
  rw [h.2.1, h.2.2.1 sessAlbumX _ rfl rfl]
  decide

/-- Claim C10, confirmed.  `getCurrentMusic` never clears the stored value:
when the session list is empty or the first session lacks a media field, the
stored `currentMusic` is unchanged (only initialization may happen) and the
previously stored value is returned; and whenever a track was recorded, the
call can never leave `currentMusic` absent. -/
theorem claim_C10 (s : MonitorState) (ok : Bool) :
    ((∀ sess, s.sessions.head? = some sess → sess.media = none) →
        (getCurrentMusic s ok).1.currentMusic = s.currentMusic
        ∧ (getCurrentMusic s ok).2 = s.currentMusic)
    ∧ (∀ m, s.currentMusic = some m → (getCurrentMusic s ok).1.currentMusic ≠ none) := by
  constructor
  · intro hall
    rw [getCurrentMusic_eq]
    rw [start_sessions]
    cases hh : s.sessions.head? with
    | none => simp [hh, start_currentMusic]
    | some sess => simp [hh, hall sess hh, start_currentMusic]
  · intro m hm
    rw [getCurrentMusic_eq]
    cases hh : (start s ok).sessions.head? with
    | none => simp [hh, start_currentMusic, hm]
    | some sess =>
        cases hmm : sess.media with
        | none => simp [hh, hmm, start_currentMusic, hm]
        | some md =>
            simp only [hh, hmm]
            rcases updateIfChanged_currentMusic (start s ok) (currentMusicDerived md) with h1 | h1
            · simp [h1]
            · rw [h1, start_currentMusic, hm]
              simp

/-- Witness for C10: with a recorded track and a media-less (timeline-only)
session at the head of the list, `getCurrentMusic` still returns the old
track. -/
theorem claim_C10_witness :
    (getCurrentMusic
      { currentMusic := some { artist := "A", title := "B", album := some "" },
        isInitialized := true, sessions := [sessStop], lastStatus := none, subscribeCount := 1 }
      true).2 = some { artist := "A", title := "B", album := some "" } := by
  exact ((claim_C10
    { currentMusic := some { artist := "A", title := "B", album := some "" },
      isInitialized := true, sessions := [sessStop], lastStatus := none, subscribeCount := 1 }
    true).1 (fun sess hs => by
      injection hs with h2
      rw [← h2]
      rfl)).2

/-- Counterexample for C5 as stated: the CLI parse does not keep everything
after the first separator as the title.  "A - B - C" parses with title "B"
(the split is on every " - " occurrence and only the first two parts are
kept), not "B - C" as the claim states; moreover the comma/hyphen cleanup the
claim describes is absent from the Windows CLI variant, which returns
"Daft Punk, Pharrell" / "One More Time -" uncleaned. -/
theorem claim_C5_counterexample :
    getLinuxMusic (.success "A - B - C") = .ok { artist := "A", title := "B", album := none }
    ∧ ({ artist := "A", title := "B", album := none } : MusicInfo)
      ≠ { artist := "A", title := "B - C", album := none }
    ∧ getSpotifyMusicWindows (.success "Daft Punk, Pharrell - One More Time -")
      = .ok (some { artist := "Daft Punk, Pharrell", title := "One More Time -", album := none }) := by
  exact ⟨by decide, by decide, by decide⟩

/-- Claim C5, corrected.  Both CLI adapters split the trimmed output on every
occurrence of " - " and keep the first two parts as artist and title when
both are non-empty, dropping any later parts (so "A - B - C" parses with
title "B").  Only the Linux variant then truncates the artist before a comma
and strips a single trailing hyphen from the title; the Windows variant
merely trims both parts. -/
theorem claim_C5_amended (out a t : String) (rest : List String)
    (hsplit : jsSplit (jsTrim out) " - " = a :: t :: rest)
    (ha : a ≠ "") (ht : t ≠ "") :
    getLinuxMusic (.success out)
      = .ok { artist := cleanArtist a, title := cleanTitle t, album := none }
    ∧ getSpotifyMusicWindows (.success out)
      = .ok (some { artist := jsTrim a, title := jsTrim t, album := none }) := by
  have hne : jsTrim out ≠ "" := by
    intro h0
    rw [h0, jsSplit_empty] at hsplit
    exact absurd (congrArg List.length hsplit) (by simp)
  constructor
  · simp [getLinuxMusic, parsePair, hsplit, ha, ht]
  · simp [getSpotifyMusicWindows, parsePair, hsplit, ha, ht, hne]

/-- Witness for C5: the spec's own example parses to the cleaned record under
the Linux variant. -/
theorem claim_C5_amended_witness :
    jsSplit (jsTrim "Daft Punk, Pharrell - One More Time -") " - "
      = ["Daft Punk, Pharrell", "One More Time -"]
    ∧ getLinuxMusic (.success "Daft Punk, Pharrell - One More Time -")
      = .ok { artist := "Daft Punk", title := "One More Time", album := none } := by
  constructor
  · decide
  · exact ((claim_C5_amended "Daft Punk, Pharrell - One More Time -" "Daft Punk, Pharrell"
      "One More Time -" [] (by decide) (by decide) (by decide)).1).trans (by decide)

/-- Counterexample for C6 as stated: the Linux CLI adapter turns empty output
into a parse-failure rejection, not an empty "no track" result; and the
Windows CLI adapter resolves a command-execution failure to exactly the same
value as "command succeeded but nothing playing", so the two are not
distinguishable. -/
theorem claim_C6_counterexample :
    getLinuxMusic (.success "") = .error "Unable to parse song information"
    ∧ getSpotifyMusicWindows .fail = .ok none
    ∧ getSpotifyMusicWindows .fail = getSpotifyMusicWindows (.success "") := by
  exact ⟨by decide, rfl, by decide⟩

/-- Claim C6, corrected.  The two CLI adapters implement different and
incomplete outcome taxonomies.  The Windows variant never rejects: command
failure, empty output and unparsable output all resolve to the same empty
result.  The Linux variant does distinguish command failure ("An error
occurred") as an error, but surfaces empty output like any unparsable output:
as the parse-failure rejection, never as an empty result. -/
theorem claim_C6_amended :
    (∀ r, ∃ o, getSpotifyMusicWindows r = .ok o)
    ∧ getSpotifyMusicWindows .fail = .ok none
    ∧ (∀ out, jsTrim out = "" → getSpotifyMusicWindows (.success out) = .ok none)
    ∧ (∀ out, parsePair (jsTrim out) = none → getSpotifyMusicWindows (.success out) = .ok none)
    ∧ getLinuxMusic .fail = .error "An error occurred"
    ∧ (∀ out, parsePair (jsTrim out) = none →
        getLinuxMusic (.success out) = .error "Unable to parse song information")
    ∧ parsePair "" = none := by
  refine ⟨?_, rfl, ?_, ?_, rfl, ?_, rfl⟩
  · intro r
    rcases r with _ | out
    · exact ⟨none, rfl⟩
    · by_cases h : jsTrim out = ""
      · exact ⟨none, by simp [getSpotifyMusicWindows, h]⟩
      · rcases hp : parsePair (jsTrim out) with _ | ⟨a, t⟩
        · exact ⟨none, by simp [getSpotifyMusicWindows, h, hp]⟩
        · exact ⟨some { artist := jsTrim a, title := jsTrim t, album := none },
            by simp [getSpotifyMusicWindows, h, hp]⟩
  · intro out h
    simp [getSpotifyMusicWindows, h]
  · intro out hp
    by_cases h : jsTrim out = ""
    · simp [getSpotifyMusicWindows, h]
    · simp [getSpotifyMusicWindows, h, hp]
  · intro out hp
    simp [getLinuxMusic, hp]

/-- Witness for C6: whitespace-only output resolves empty under the Windows
variant, and separator-less output rejects under the Linux variant. -/
theorem claim_C6_amended_witness :
    getSpotifyMusicWindows (.success "   ") = .ok none
    ∧ getLinuxMusic (.success "garbage output") = .error "Unable to parse song information" := by
  obtain ⟨-, -, h3, -, -, h6, -⟩ := claim_C6_amended
  exact ⟨h3 "   " (by decide), h6 "garbage output" (by decide)⟩

/-- Counterexample for C7 as stated: the browser-title adapter does not split
on the first " - " only.  On "One More Time - Daft Punk - Live" the code
splits on every occurrence and keeps the second part, giving artist
"Daft Punk", whereas splitting on the first separator would give artist
"Daft Punk - Live". -/
theorem claim_C7_counterexample :
    getMacOSMusic (.success "One More Time - Daft Punk - Live")
      = .ok { artist := "Daft Punk", title := "One More Time", album := none }
    ∧ ({ artist := "Daft Punk", title := "One More Time", album := none } : MusicInfo)
      ≠ { artist := "Daft Punk - Live", title := "One More Time", album := none } := by
  exact ⟨by decide, by decide⟩

/-- Claim C7, corrected on the split rule.  The browser-title adapter splits
the trimmed tab title on every occurrence of " - " and parses it as
"TITLE - ARTIST" (field order reversed relative to the CLI adapters): at
least two parts yield the trimmed first part as title and the trimmed second
part as artist, any later parts being dropped; fewer than two parts is
surfaced as a parse-failure error, never as an empty "no track" result. -/
theorem claim_C7_amended (out : String) :
    (∀ t a rest, jsSplit (jsTrim out) " - " = t :: a :: rest →
        getMacOSMusic (.success out) = .ok { artist := jsTrim a, title := jsTrim t, album := none })
    ∧ ((jsSplit (jsTrim out) " - ").length < 2 →
        getMacOSMusic (.success out) = .error "Unable to parse song information") := by
  constructor
  · intro t a rest h
    simp [getMacOSMusic, h]
  · intro h
    rcases hh : jsSplit (jsTrim out) " - " with _ | ⟨x, _ | ⟨y, xs⟩⟩
    · simp [getMacOSMusic, hh]
    · simp [getMacOSMusic, hh]
    · exfalso
      rw [hh] at h
      simp at h
      omega

/-- Witness for C7: the spec's own browser-title example parses title-first,
and a separator-less title is a parse failure. -/
theorem claim_C7_amended_witness :
    getMacOSMusic (.success "One More Time - Daft Punk")
      = .ok { artist := "Daft Punk", title := "One More Time", album := none }
    ∧ getMacOSMusic (.success "NoSeparatorHere")
      = .error "Unable to parse song information" := by
  constructor
  · exact ((claim_C7_amended "One More Time - Daft Punk").1 "One More Time" "Daft Punk" []
      (by decide)).trans (by decide)
  · exact (claim_C7_amended "NoSeparatorHere").2 (by decide)

end NowPlaying
